import Mathlib

/-!
Verification of the toll-management pass lifecycle and validation engine.

Shallow embedding of the Python sources:
  * `models.py`                                — enums and entities;
  * `services/pass_pricing_service.py`         — pricing table;
  * `services/pass_validation_service.py`      — validation evaluator;
  * `services/pass_lifecycle_service.py`       — lifecycle mutator;
  * `repositories/pass_repository_mysql.py`    — pass storage (the SQL layer
    is modelled as a list of passes; the domain/DB converters are identity
    bijections on every field, so nothing is lost);
  * `system.py`                                — the orchestrator
    (`purchase_pass`, `process_vehicle`).

Instants (`datetime`) and durations (`timedelta`) are modelled as integers
(seconds).  `datetime.now()` is modelled by passing the current instant `now`
explicitly; within one `process_vehicle` attempt the successive
`datetime.now()` calls of the source are identified with the single instant
of the attempt.  A Python expression that would raise `TypeError`
(comparing or formatting a `None` timestamp) is modelled by `Option`:
the function returns `none` exactly where the source would crash.
-/

namespace TollSystem

/-- `models.VehicleType`. -/
inductive VehicleType where
  | TWO_WHEELER
  | FOUR_WHEELER
deriving DecidableEq, Repr

/-- `models.PassType`. -/
inductive PassType where
  | SINGLE
  | RETURN
  | SEVEN_DAY
deriving DecidableEq, Repr

/-- `models.PassStatus`. -/
inductive PassStatus where
  | ACTIVE
  | EXPIRED
  | EXHAUSTED
deriving DecidableEq, Repr

/-- `models.TollPass`.  Timestamps are integer instants; the pass identifier
is modelled as the value of the generating counter (the source formats it as
the string `PASS-%04d`, a bijective presentation of the same number). -/
structure TollPass where
  pass_id : Nat
  vehicle_reg : String
  toll_id : String
  pass_type : PassType
  vehicle_type : VehicleType
  price : Int
  purchased_at : Int
  first_used_at : Option Int := none
  valid_until : Option Int := none
  uses_remaining : Int := 1
  status : PassStatus := PassStatus.ACTIVE
deriving DecidableEq, Repr

/-- `models.Vehicle`. -/
structure Vehicle where
  registration_number : String
  vehicle_type : VehicleType
deriving DecidableEq, Repr

/-- `models.TollBooth`. -/
structure TollBooth where
  booth_id : String
  toll_id : String
  name : String
  vehicles_processed : Int := 0
  total_charges_collected : Int := 0
deriving DecidableEq, Repr

/-- `models.Toll`; the `booths` dict is modelled as an association list
keyed by `booth_id`. -/
structure Toll where
  toll_id : String
  name : String
  location : String
  booths : List TollBooth
deriving DecidableEq, Repr

/-- `models.Transaction`.  The transaction identifier is the counter value
(source formats it as `TXN-%05d`). -/
structure Transaction where
  transaction_id : Nat
  booth_id : String
  toll_id : String
  vehicle_reg : String
  vehicle_type : VehicleType
  transaction_type : String
  pass_id : Option Nat
  amount : Int
  timestamp : Int
deriving DecidableEq, Repr

/-! ## Pricing service (`services/pass_pricing_service.py`) -/

/-- `PassPricingService.PASS_PRICES` / `get_pass_price` (total on the closed
enums; the `ValueError` branches of the source are unreachable). -/
def get_pass_price : VehicleType → PassType → Int
  | VehicleType.TWO_WHEELER, PassType.SINGLE => 50
  | VehicleType.TWO_WHEELER, PassType.RETURN => 80
  | VehicleType.TWO_WHEELER, PassType.SEVEN_DAY => 250
  | VehicleType.FOUR_WHEELER, PassType.SINGLE => 100
  | VehicleType.FOUR_WHEELER, PassType.RETURN => 150
  | VehicleType.FOUR_WHEELER, PassType.SEVEN_DAY => 500

/-- `PassPricingService.PASS_DURATIONS` / `get_pass_duration`, in seconds:
1 hour, 24 hours, 7 days. -/
def get_pass_duration : PassType → Int
  | PassType.SINGLE => 3600
  | PassType.RETURN => 86400
  | PassType.SEVEN_DAY => 604800

/-- `PassPricingService.PASS_USES` / `get_pass_uses`. -/
def get_pass_uses : PassType → Int
  | PassType.SINGLE => 1
  | PassType.RETURN => 2
  | PassType.SEVEN_DAY => 999999

/-- `PassPricingService.format_duration`: `days` and `seconds` are the
`timedelta` components of an integer number of seconds. -/
def format_duration (d : Int) : String :=
  if d / 86400 = 7 then "7 days"
  else if d / 86400 = 1 then "24 hours"
  else if d % 86400 = 3600 then "1 hour"
  else toString (d / 3600) ++ " hours"

/-! ## Validation evaluator (`services/pass_validation_service.py`) -/

/-- `pass_validation_service.PassValidationResult`. -/
structure PassValidationResult where
  is_valid : Bool
  reason : Option String := none
  is_time_valid : Bool := false
  has_uses_remaining : Bool := false
  is_first_use : Bool := false
deriving DecidableEq, Repr

/-- `PassValidationService.validate_pass`.  The source reads
`datetime.now()`; here the instant is the explicit argument `current_time`.
In the already-used branch the source evaluates
`current_time < toll_pass.valid_until`; if `valid_until` were `None` Python
would raise `TypeError`, modelled by the `none` result. -/
def validate_pass (toll_pass : TollPass) (current_time : Int) :
    Option PassValidationResult :=
  match toll_pass.first_used_at with
  | none =>
    if toll_pass.uses_remaining > 0 then
      some { is_valid := true, reason := none, is_time_valid := true,
             has_uses_remaining := true, is_first_use := true }
    else
      some { is_valid := false, reason := some "exhausted",
             is_time_valid := true, has_uses_remaining := false,
             is_first_use := true }
  | some _ =>
    match toll_pass.valid_until with
    | none => none
    | some vu =>
      let is_time_valid : Bool := current_time < vu
      let has_uses_remaining : Bool := toll_pass.uses_remaining > 0
      if ¬ is_time_valid then
        some { is_valid := false, reason := some "expired",
               is_time_valid := false,
               has_uses_remaining := has_uses_remaining,
               is_first_use := false }
      else if ¬ has_uses_remaining then
        some { is_valid := false, reason := some "exhausted",
               is_time_valid := true, has_uses_remaining := false,
               is_first_use := false }
      else
        some { is_valid := true, reason := none, is_time_valid := true,
               has_uses_remaining := true, is_first_use := false }

/-- `PassValidationService.determine_pass_status`. -/
def determine_pass_status (is_time_valid has_uses_remaining : Bool) :
    PassStatus :=
  if ¬ has_uses_remaining then PassStatus.EXHAUSTED
  else if ¬ is_time_valid then PassStatus.EXPIRED
  else PassStatus.ACTIVE

/-! ## Lifecycle mutator (`services/pass_lifecycle_service.py`)

The Python methods mutate the pass in place; each is embedded as a function
returning the updated pass. -/

/-- `PassLifecycleService.set_first_use`. -/
def set_first_use (toll_pass : TollPass) (current_time : Int) : TollPass :=
  let duration := get_pass_duration toll_pass.pass_type
  { toll_pass with
      first_used_at := some current_time,
      valid_until := some (current_time + duration) }

/-- `PassLifecycleService.use_pass`. -/
def use_pass (toll_pass : TollPass) : TollPass :=
  let decremented := { toll_pass with
      uses_remaining := toll_pass.uses_remaining - 1 }
  if decremented.uses_remaining = 0 then
    { decremented with status := PassStatus.EXHAUSTED }
  else
    decremented

/-- `PassLifecycleService.update_pass_status`. -/
def update_pass_status (toll_pass : TollPass)
    (is_time_valid has_uses_remaining : Bool) : TollPass :=
  if ¬ has_uses_remaining then
    { toll_pass with status := PassStatus.EXHAUSTED }
  else if ¬ is_time_valid then
    { toll_pass with status := PassStatus.EXPIRED }
  else
    { toll_pass with status := PassStatus.ACTIVE }

/-! ## Repositories and system state

`system.py` holds a `TollRepository`, `VehicleRepository`, `PassRepository`
and `TransactionRepository` over MySQL, plus the two ID counters.  The
database tables are modelled as lists; the `_next_pass_id` /
`_next_transaction_id` counters are carried in the state. -/

/-- The persistent state of `TollManagementSystem`: the repository contents
plus the two ID counters. -/
structure SysState where
  vehicles : List Vehicle
  tolls : List Toll
  passes : List TollPass
  transactions : List Transaction
  next_pass_id : Nat
  next_transaction_id : Nat
deriving DecidableEq, Repr

/-- `PassRepository.find_active_pass`: the SQL query
`WHERE vehicle_reg = ? AND toll_id = ? AND status = 'ACTIVE' LIMIT 1` —
a filter on the STORED status column. -/
def find_active_pass (passes : List TollPass) (vehicle_reg toll_id : String) :
    Option TollPass :=
  passes.find? (fun p =>
    p.vehicle_reg = vehicle_reg ∧ p.toll_id = toll_id ∧
    p.status = PassStatus.ACTIVE)

/-- `PassRepository.update_pass`: overwrite the row whose `pass_id` matches. -/
def update_pass (passes : List TollPass) (toll_pass : TollPass) :
    List TollPass :=
  passes.map (fun p => if p.pass_id = toll_pass.pass_id then toll_pass else p)

/-- `VehicleRepository.get_vehicle` (and `exists`, which is
`(get_vehicle r).isSome`). -/
def get_vehicle (vehicles : List Vehicle) (vehicle_reg : String) :
    Option Vehicle :=
  vehicles.find? (fun v => v.registration_number = vehicle_reg)

/-- `TollRepository.get_toll` (and `exists`). -/
def get_toll (tolls : List Toll) (toll_id : String) : Option Toll :=
  tolls.find? (fun t => t.toll_id = toll_id)

/-- Lookup of `toll.booths[booth_id]` (`booth_id in toll.booths`). -/
def get_booth (toll : Toll) (booth_id : String) : Option TollBooth :=
  toll.booths.find? (fun b => b.booth_id = booth_id)

/-- `TollRepository.update_booth`: overwrite the booth row matching
`(toll_id, booth_id)`. -/
def update_booth (tolls : List Toll) (booth : TollBooth) : List Toll :=
  tolls.map (fun t =>
    { t with booths := t.booths.map (fun b =>
        if b.toll_id = booth.toll_id ∧ b.booth_id = booth.booth_id
        then booth else b) })

/-! ## Orchestrator (`system.py`) -/

/-- One entry of `TollManagementSystem.display_pass_options`. -/
structure PassOption where
  pass_type : PassType
  price : Int
  duration : String
  uses : Int
  description : String
deriving DecidableEq, Repr

/-- `TollManagementSystem.display_pass_options`: iterates `PassType` in
declaration order. -/
def display_pass_options (vehicle_type : VehicleType) : List PassOption :=
  [PassType.SINGLE, PassType.RETURN, PassType.SEVEN_DAY].map (fun pt =>
    { pass_type := pt,
      price := get_pass_price vehicle_type pt,
      duration := format_duration (get_pass_duration pt),
      uses := get_pass_uses pt,
      description :=
        match pt with
        | PassType.SINGLE => "Single journey pass, valid for 1 use"
        | PassType.RETURN => "Return journey pass, valid for 2 uses"
        | PassType.SEVEN_DAY => "Weekly pass, unlimited uses for 7 days" })

/-- `TollManagementSystem.purchase_pass`.  Returns the new state and the new
pass, or the `ValueError` message. -/
def purchase_pass (st : SysState) (vehicle_reg toll_id booth_id : String)
    (pass_type : PassType) (now : Int) :
    Except String (SysState × TollPass) :=
  match get_vehicle st.vehicles vehicle_reg with
  | none => Except.error ("Vehicle " ++ vehicle_reg ++ " not registered in system")
  | some vehicle =>
  match get_toll st.tolls toll_id with
  | none => Except.error ("Toll " ++ toll_id ++ " not found")
  | some toll =>
  match get_booth toll booth_id with
  | none => Except.error ("Booth " ++ booth_id ++ " not found at toll " ++ toll_id)
  | some booth =>
  match find_active_pass st.passes vehicle_reg toll_id with
  | some existing_pass =>
      Except.error ("Vehicle already has an active pass at this toll. Pass ID: "
        ++ toString existing_pass.pass_id)
  | none =>
    let price := get_pass_price vehicle.vehicle_type pass_type
    let uses := get_pass_uses pass_type
    let pass_id := st.next_pass_id
    let new_pass : TollPass :=
      { pass_id := pass_id,
        vehicle_reg := vehicle_reg,
        toll_id := toll_id,
        pass_type := pass_type,
        vehicle_type := vehicle.vehicle_type,
        price := price,
        purchased_at := now,
        first_used_at := none,
        valid_until := none,
        uses_remaining := uses,
        status := PassStatus.ACTIVE }
    let txn : Transaction :=
      { transaction_id := st.next_transaction_id,
        booth_id := booth_id,
        toll_id := toll_id,
        vehicle_reg := vehicle_reg,
        vehicle_type := vehicle.vehicle_type,
        transaction_type := "PURCHASE",
        pass_id := some pass_id,
        amount := price,
        timestamp := now }
    let booth1 := { booth with
        total_charges_collected := booth.total_charges_collected + price }
    Except.ok
      ({ st with
          passes := st.passes ++ [new_pass],
          transactions := st.transactions ++ [txn],
          next_pass_id := st.next_pass_id + 1,
          next_transaction_id := st.next_transaction_id + 1,
          tolls := update_booth st.tolls booth1 },
       new_pass)

/-- The `pass_info` dict built by `process_vehicle`.  The source formats
`toll_pass.valid_until` with `strftime`; that field is therefore a plain
instant here, and building the snapshot from a pass with `valid_until ==
None` is the modelled crash point. -/
structure PassInfo where
  pass_id : Nat
  pass_type : PassType
  status : PassStatus
  valid_until : Int
  uses_remaining : Int
deriving DecidableEq, Repr

/-- Builds the `pass_info` dict; `none` models the `AttributeError` the
source would raise on `None.strftime(...)`. -/
def build_pass_info (toll_pass : TollPass) : Option PassInfo :=
  toll_pass.valid_until.map (fun vu =>
    { pass_id := toll_pass.pass_id,
      pass_type := toll_pass.pass_type,
      status := toll_pass.status,
      valid_until := vu,
      uses_remaining := toll_pass.uses_remaining })

/-- The dict returned by `TollManagementSystem.process_vehicle`. -/
structure PassageResult where
  allowed : Bool
  message : String
  pass_info : Option PassInfo
  pass_options : Option (List PassOption)
deriving DecidableEq, Repr

/-- `TollManagementSystem.process_vehicle`.  Returns the new state and the
result dict; the outer `none` models the source raising (`TypeError` in
`validate_pass` or `AttributeError` formatting a `None` `valid_until`),
which can only happen on a pass violating the nullability invariant. -/
def process_vehicle (st : SysState) (vehicle_reg toll_id booth_id : String)
    (now : Int) : Option (SysState × PassageResult) :=
  match get_vehicle st.vehicles vehicle_reg with
  | none => some (st,
      { allowed := false,
        message := "Vehicle " ++ vehicle_reg ++ " not registered",
        pass_info := none, pass_options := none })
  | some vehicle =>
  match get_toll st.tolls toll_id with
  | none => some (st,
      { allowed := false,
        message := "Toll " ++ toll_id ++ " not found",
        pass_info := none, pass_options := none })
  | some toll =>
  match get_booth toll booth_id with
  | none => some (st,
      { allowed := false,
        message := "Booth " ++ booth_id ++ " not found at toll " ++ toll_id,
        pass_info := none, pass_options := none })
  | some booth =>
  match find_active_pass st.passes vehicle_reg toll_id with
  | none => some (st,
      { allowed := false,
        message := "No valid pass found for this toll",
        pass_info := none,
        pass_options := some (display_pass_options vehicle.vehicle_type) })
  | some toll_pass =>
  match validate_pass toll_pass now with
  | none => none
  | some validation_result =>
    -- if first use: set_first_use, persist
    let toll_pass1 :=
      if validation_result.is_first_use then set_first_use toll_pass now
      else toll_pass
    let st1 :=
      if validation_result.is_first_use then
        { st with passes := update_pass st.passes toll_pass1 }
      else st
    -- if not first use: update_pass_status, persist
    let toll_pass2 :=
      if ¬ validation_result.is_first_use then
        update_pass_status toll_pass1 validation_result.is_time_valid
          validation_result.has_uses_remaining
      else toll_pass1
    let st2 :=
      if ¬ validation_result.is_first_use then
        { st1 with passes := update_pass st1.passes toll_pass2 }
      else st1
    if ¬ validation_result.is_valid then
      (build_pass_info toll_pass2).map (fun info =>
        (st2,
         { allowed := false,
           message := "Pass " ++ toString toll_pass2.pass_id ++ " is " ++
             (validation_result.reason.getD ""),
           pass_info := some info,
           pass_options := some (display_pass_options vehicle.vehicle_type) }))
    else
      let toll_pass3 := use_pass toll_pass2
      let st3 := { st2 with passes := update_pass st2.passes toll_pass3 }
      let txn : Transaction :=
        { transaction_id := st3.next_transaction_id,
          booth_id := booth_id,
          toll_id := toll_id,
          vehicle_reg := vehicle_reg,
          vehicle_type := vehicle.vehicle_type,
          transaction_type := "PASSAGE",
          pass_id := some toll_pass3.pass_id,
          amount := 0,
          timestamp := now }
      let st4 := { st3 with
          transactions := st3.transactions ++ [txn],
          next_transaction_id := st3.next_transaction_id + 1 }
      let booth1 := { booth with
          vehicles_processed := booth.vehicles_processed + 1 }
      let st5 := { st4 with tolls := update_booth st4.tolls booth1 }
      (build_pass_info toll_pass3).map (fun info =>
        (st5,
         { allowed := true,
           message := "Passage allowed",
           pass_info := some info,
           pass_options := none }))

/-! ## Concrete fixtures used by counterexamples and witnesses -/

/-- A freshly purchased RETURN pass: never used, both nullable fields null. -/
def freshPass : TollPass :=
  { pass_id := 1, vehicle_reg := "V1", toll_id := "T1",
    pass_type := PassType.RETURN, vehicle_type := VehicleType.TWO_WHEELER,
    price := 80, purchased_at := 0, first_used_at := none,
    valid_until := none, uses_remaining := 2,
    status := PassStatus.ACTIVE }

/-- A pass first used at instant 0 with `valid_until = 100` and no uses
left; its stored status still reads ACTIVE. -/
def staleActivePass : TollPass :=
  { pass_id := 1, vehicle_reg := "V1", toll_id := "T1",
    pass_type := PassType.RETURN, vehicle_type := VehicleType.TWO_WHEELER,
    price := 80, purchased_at := 0, first_used_at := some 0,
    valid_until := some 100, uses_remaining := 0,
    status := PassStatus.ACTIVE }

/-! ## Helper lemmas about the services and repositories -/

/-- `use_pass` touches only `uses_remaining` and `status`. -/
lemma use_pass_fields (p : TollPass) :
    (use_pass p).pass_id = p.pass_id ∧
    (use_pass p).first_used_at = p.first_used_at ∧
    (use_pass p).valid_until = p.valid_until ∧
    (use_pass p).pass_type = p.pass_type ∧
    (use_pass p).uses_remaining = p.uses_remaining - 1 := by
  by_cases h : p.uses_remaining - 1 = 0 <;> simp [use_pass, h]

/-- `update_pass_status` touches only `status`. -/
lemma update_pass_status_fields (p : TollPass) (a b : Bool) :
    (update_pass_status p a b).pass_id = p.pass_id ∧
    (update_pass_status p a b).first_used_at = p.first_used_at ∧
    (update_pass_status p a b).valid_until = p.valid_until ∧
    (update_pass_status p a b).pass_type = p.pass_type ∧
    (update_pass_status p a b).uses_remaining = p.uses_remaining := by
  cases a <;> cases b <;> simp [update_pass_status]

/-- `update_pass_status` writes exactly `determine_pass_status`. -/
lemma update_pass_status_status (p : TollPass) (a b : Bool) :
    (update_pass_status p a b).status = determine_pass_status a b := by
  cases a <;> cases b <;> rfl

/-- `set_first_use` as an explicit record update. -/
lemma set_first_use_eq (p : TollPass) (now : Int) :
    set_first_use p now
      = { p with
            first_used_at := some now,
            valid_until := some (now + get_pass_duration p.pass_type) } := rfl

/-- Every element of an updated pass list is an old element or the update. -/
lemma mem_update_pass {l : List TollPass} {p q : TollPass}
    (h : q ∈ update_pass l p) : q ∈ l ∨ q = p := by
  unfold update_pass at h
  obtain ⟨a, ha, hq⟩ := List.mem_map.mp h
  by_cases hc : a.pass_id = p.pass_id
  · right
    rw [if_pos hc] at hq
    exact hq.symm
  · left
    rw [if_neg hc] at hq
    exact hq ▸ ha

/-- A pass found by `find_active_pass` is a stored pass of the pair whose
STORED status column reads ACTIVE. -/
lemma find_active_pass_mem {l : List TollPass} {v t : String} {p : TollPass}
    (h : find_active_pass l v t = some p) :
    p ∈ l ∧ p.vehicle_reg = v ∧ p.toll_id = t ∧
    p.status = PassStatus.ACTIVE := by
  refine ⟨List.mem_of_find?_eq_some h, ?_⟩
  have := List.find?_some h
  simpa using this

/-- `find_active_pass` misses exactly when no stored row of the pair has
stored status ACTIVE. -/
lemma find_active_pass_eq_none {l : List TollPass} {v t : String} :
    find_active_pass l v t = none ↔
    ∀ p ∈ l, ¬ (p.vehicle_reg = v ∧ p.toll_id = t ∧
      p.status = PassStatus.ACTIVE) := by
  unfold find_active_pass
  rw [List.find?_eq_none]
  constructor
  · intro h p hp hc
    have := h p hp
    simp [hc.1, hc.2.1, hc.2.2] at this
  · intro h p hp
    have := h p hp
    simpa using this

/-- `validate_pass` succeeds on every pass that is never-used or has a
non-null `valid_until`. -/
lemma validate_pass_isSome (p : TollPass) (now : Int)
    (hp : p.first_used_at = none ∨ ∃ vu, p.valid_until = some vu) :
    ∃ vr, validate_pass p now = some vr := by
  cases hfu : p.first_used_at with
  | none =>
    simp only [validate_pass, hfu]
    split <;> exact ⟨_, rfl⟩
  | some fu =>
    rcases hp with h | ⟨vu, hvu⟩
    · rw [hfu] at h
      exact Option.noConfusion h
    · simp only [validate_pass, hfu, hvu]
      split
      · exact ⟨_, rfl⟩
      · split <;> exact ⟨_, rfl⟩

/-- A returned validation result reports `is_first_use` exactly for a pass
whose `first_used_at` is null. -/
lemma validate_isFirstUse {p : TollPass} {now : Int}
    {vr : PassValidationResult} (h : validate_pass p now = some vr) :
    vr.is_first_use = true ↔ p.first_used_at = none := by
  cases hfu : p.first_used_at with
  | none =>
    simp only [validate_pass, hfu] at h
    split at h <;> (injection h with h; subst h; simp)
  | some fu =>
    simp only [validate_pass, hfu] at h
    split at h
    · cases h
    · rename_i vu hvu
      split at h
      · injection h with h; subst h; simp
      · split at h <;> (injection h with h; subst h; simp)

/-- A usable verdict requires uses remaining. -/
lemma validate_isValid_uses {p : TollPass} {now : Int}
    {vr : PassValidationResult} (h : validate_pass p now = some vr)
    (hv : vr.is_valid = true) : 0 < p.uses_remaining := by
  cases hfu : p.first_used_at with
  | none =>
    simp only [validate_pass, hfu] at h
    split at h
    · rename_i hgt
      exact hgt
    · injection h with h
      subst h
      simp at hv
  | some fu =>
    simp only [validate_pass, hfu] at h
    split at h
    · cases h
    · rename_i vu hvu
      split at h
      · injection h with h
        subst h
        simp at hv
      · split at h
        · injection h with h
          subst h
          simp at hv
        · rename_i h1 h2
          injection h with h
          subst h
          simpa using h2

/-- Master case analysis of `process_vehicle`: every returned pair is
either an early denial (unknown vehicle/toll/booth, or no active pass
found) leaving the state untouched, or is obtained from the found pass
`tp` and its validation `vr` by the source's mutate-persist pipeline. -/
lemma process_vehicle_spec {st : SysState} {v t b : String} {now : Int}
    {st2 : SysState} {r : PassageResult}
    (h : process_vehicle st v t b now = some (st2, r)) :
    (st2 = st ∧ r.allowed = false ∧ r.pass_info = none) ∨
    ∃ vehicle toll booth tp vr,
      get_vehicle st.vehicles v = some vehicle ∧
      get_toll st.tolls t = some toll ∧
      get_booth toll b = some booth ∧
      find_active_pass st.passes v t = some tp ∧
      validate_pass tp now = some vr ∧
      ∃ p2, p2 = (if vr.is_first_use then set_first_use tp now
                  else update_pass_status tp vr.is_time_valid
                    vr.has_uses_remaining) ∧
        ((vr.is_valid = false ∧
          ∃ info, build_pass_info p2 = some info ∧
            st2 = { st with passes := update_pass st.passes p2 } ∧
            r = { allowed := false,
                  message := "Pass " ++ toString p2.pass_id ++ " is "
                    ++ vr.reason.getD "",
                  pass_info := some info,
                  pass_options :=
                    some (display_pass_options vehicle.vehicle_type) }) ∨
         (vr.is_valid = true ∧
          ∃ info, build_pass_info (use_pass p2) = some info ∧
            st2 = { st with
                passes := update_pass (update_pass st.passes p2)
                  (use_pass p2),
                transactions := st.transactions ++
                  [{ transaction_id := st.next_transaction_id,
                     booth_id := b,
                     toll_id := t,
                     vehicle_reg := v,
                     vehicle_type := vehicle.vehicle_type,
                     transaction_type := "PASSAGE",
                     pass_id := some (use_pass p2).pass_id,
                     amount := 0,
                     timestamp := now }],
                next_transaction_id := st.next_transaction_id + 1,
                tolls := update_booth st.tolls
                  { booth with vehicles_processed :=
                      booth.vehicles_processed + 1 } } ∧
            r = { allowed := true, message := "Passage allowed",
                  pass_info := some info, pass_options := none })) := by
  unfold process_vehicle at h
  cases hv : get_vehicle st.vehicles v with
  | none =>
    simp only [hv, Option.some.injEq, Prod.mk.injEq] at h
    obtain ⟨h1, h2⟩ := h
    subst h1
    subst h2
    exact Or.inl ⟨rfl, rfl, rfl⟩
  | some vehicle =>
  cases ht : get_toll st.tolls t with
  | none =>
    simp only [hv, ht, Option.some.injEq, Prod.mk.injEq] at h
    obtain ⟨h1, h2⟩ := h
    subst h1
    subst h2
    exact Or.inl ⟨rfl, rfl, rfl⟩
  | some toll =>
  cases hb : get_booth toll b with
  | none =>
    simp only [hv, ht, hb, Option.some.injEq, Prod.mk.injEq] at h
    obtain ⟨h1, h2⟩ := h
    subst h1
    subst h2
    exact Or.inl ⟨rfl, rfl, rfl⟩
  | some booth =>
  cases hfa : find_active_pass st.passes v t with
  | none =>
    simp only [hv, ht, hb, hfa, Option.some.injEq, Prod.mk.injEq] at h
    obtain ⟨h1, h2⟩ := h
    subst h1
    subst h2
    exact Or.inl ⟨rfl, rfl, rfl⟩
  | some tp =>
  cases hvr : validate_pass tp now with
  | none =>
    simp only [hv, ht, hb, hfa, hvr] at h
    exact Option.noConfusion h
  | some vr =>
    refine Or.inr ⟨vehicle, toll, booth, tp, vr, rfl, rfl, hb, rfl, hvr, ?_⟩
    cases hfb : vr.is_first_use with
    | true =>
      cases hvb : vr.is_valid with
      | false =>
        simp only [hv, ht, hb, hfa, hvr] at h
        simp [hfb, hvb, Option.map_eq_some'] at h
        obtain ⟨info, hinfo, hst, hr⟩ := h
        exact ⟨set_first_use tp now, by simp,
          Or.inl ⟨rfl, info, hinfo, hst.symm, hr.symm⟩⟩
      | true =>
        simp only [hv, ht, hb, hfa, hvr] at h
        simp [hfb, hvb, Option.map_eq_some'] at h
        obtain ⟨info, hinfo, hst, hr⟩ := h
        exact ⟨set_first_use tp now, by simp,
          Or.inr ⟨rfl, info, hinfo, hst.symm, hr.symm⟩⟩
    | false =>
      cases hvb : vr.is_valid with
      | false =>
        simp only [hv, ht, hb, hfa, hvr] at h
        simp [hfb, hvb, Option.map_eq_some'] at h
        obtain ⟨info, hinfo, hst, hr⟩ := h
        exact ⟨update_pass_status tp vr.is_time_valid vr.has_uses_remaining,
          by simp, Or.inl ⟨rfl, info, hinfo, hst.symm, hr.symm⟩⟩
      | true =>
        simp only [hv, ht, hb, hfa, hvr] at h
        simp [hfb, hvb, Option.map_eq_some'] at h
        obtain ⟨info, hinfo, hst, hr⟩ := h
        exact ⟨update_pass_status tp vr.is_time_valid vr.has_uses_remaining,
          by simp, Or.inr ⟨rfl, info, hinfo, hst.symm, hr.symm⟩⟩

/-! ## C1 — first-use anchoring -/

/-- C1: `set_first_use` anchors the validity window to the instant `now` of
the passage attempt that finds a never-used pass: it sets
`first_used_at = now` and `valid_until = now + duration(pass_class)`; when
the pass was purchased strictly earlier (`purchased_at < now`), the
resulting `valid_until` differs from `purchased_at + duration`. -/
theorem first_use_anchoring (p : TollPass) (now : Int)
    (hfu : p.first_used_at = none) :
    (set_first_use p now).first_used_at = some now ∧
    (set_first_use p now).valid_until
      = some (now + get_pass_duration p.pass_type) ∧
    (p.purchased_at < now →
      (set_first_use p now).valid_until
        ≠ some (p.purchased_at + get_pass_duration p.pass_type)) := by
  refine ⟨rfl, rfl, fun hlt h => ?_⟩
  simp only [set_first_use, Option.some.injEq] at h
  omega

/-- Witness for C1 at a concrete never-used pass, first used at instant 5. -/
theorem first_use_anchoring_witness :
    freshPass.first_used_at = none ∧
    ((set_first_use freshPass 5).first_used_at = some 5 ∧
     (set_first_use freshPass 5).valid_until
       = some (5 + get_pass_duration freshPass.pass_type) ∧
     (freshPass.purchased_at < 5 →
       (set_first_use freshPass 5).valid_until
         ≠ some (freshPass.purchased_at
             + get_pass_duration freshPass.pass_type))) :=
  ⟨rfl, first_use_anchoring freshPass 5 rfl⟩

/-! ## C2 — reason priority for an exhausted, already-used pass -/

/-- C2 counterexample: `staleActivePass` was used before
(`first_used_at = some 0`) and has `uses_remaining = 0`, but evaluating at
instant 200 — past its `valid_until = 100` — reports reason `expired`,
not `exhausted`: `validate_pass` checks time BEFORE uses, so the claimed
"exhausted regardless of time" fails. -/
theorem exhausted_priority_counterexample :
    staleActivePass.first_used_at = some 0 ∧
    staleActivePass.uses_remaining = 0 ∧
    validate_pass staleActivePass 200
      = some { is_valid := false, reason := some "expired",
               is_time_valid := false, has_uses_remaining := false,
               is_first_use := false } ∧
    (some "expired" : Option String) ≠ some "exhausted" := by
  refine ⟨rfl, rfl, by decide, by decide⟩

/-- C2 amended: for an already-used pass with `uses_remaining = 0`,
`validate_pass` always reports not usable, but the single reason is
`exhausted` only while the pass is still time-valid (`now < valid_until`);
once time has also run out the reported reason is `expired` — time expiry,
not usage exhaustion, takes priority in `validate_pass`. -/
theorem exhausted_reason_amended (p : TollPass) (fu vu now : Int)
    (h1 : p.first_used_at = some fu) (h2 : p.valid_until = some vu)
    (h3 : p.uses_remaining = 0) :
    ∃ r, validate_pass p now = some r ∧ r.is_valid = false ∧
      r.reason = some (if now < vu then "exhausted" else "expired") := by
  unfold validate_pass
  rw [h1, h2]
  by_cases h : now < vu <;>
    simp [h, h3]

/-- Witness for the amended C2 at `staleActivePass`, evaluated while still
time-valid (instant 50). -/
theorem exhausted_reason_amended_witness :
    staleActivePass.first_used_at = some 0 ∧
    staleActivePass.valid_until = some 100 ∧
    staleActivePass.uses_remaining = 0 ∧
    (∃ r, validate_pass staleActivePass 50 = some r ∧ r.is_valid = false ∧
      r.reason = some (if (50:Int) < 100 then "exhausted" else "expired")) :=
  ⟨rfl, rfl, rfl,
   exhausted_reason_amended staleActivePass 0 100 50 rfl rfl rfl⟩

/-! ## C4 — strict expiry boundary -/

/-- C4: for an already-used pass with uses left, `validate_pass` computes
time validity as the strict comparison `now < valid_until`; at
`now = valid_until` the pass is not usable with reason `expired`, and any
`now` strictly before `valid_until` is time-valid. -/
theorem expiry_boundary_strict (p : TollPass) (fu vu now : Int)
    (h1 : p.first_used_at = some fu) (h2 : p.valid_until = some vu)
    (h3 : 0 < p.uses_remaining) :
    ∃ r, validate_pass p now = some r ∧
      r.is_time_valid = decide (now < vu) ∧
      (now = vu → r.is_valid = false ∧ r.reason = some "expired") ∧
      (now < vu → r.is_time_valid = true) := by
  unfold validate_pass
  rw [h1, h2]
  by_cases h : now < vu <;>
    simp [h, h3, show ¬ vu < vu by omega] <;>
    omega

/-- Witness for C4 at `staleActivePass` with one use left, evaluated exactly
at its `valid_until` instant 100. -/
theorem expiry_boundary_strict_witness :
    ({ staleActivePass with uses_remaining := 1 } : TollPass).first_used_at
        = some 0 ∧
    ({ staleActivePass with uses_remaining := 1 } : TollPass).valid_until
        = some 100 ∧
    (0:Int) < ({ staleActivePass with uses_remaining := 1 } :
        TollPass).uses_remaining ∧
    (∃ r, validate_pass { staleActivePass with uses_remaining := 1 } 100
        = some r ∧
      r.is_time_valid = decide ((100:Int) < 100) ∧
      ((100:Int) = 100 → r.is_valid = false ∧ r.reason = some "expired") ∧
      ((100:Int) < 100 → r.is_time_valid = true)) :=
  ⟨rfl, rfl, by decide,
   expiry_boundary_strict { staleActivePass with uses_remaining := 1 }
     0 100 100 rfl rfl (by decide)⟩

/-! ## C8 — the two status functions implement the same mapping -/

/-- C8: `update_pass_status` (lifecycle mutator) and `determine_pass_status`
(validation evaluator) implement the same mapping: for every pass and every
pair of booleans, the updated pass's status equals
`determine_pass_status`, namely EXHAUSTED if no uses remain, else EXPIRED
if not time-valid, else ACTIVE. -/
theorem status_functions_agree (p : TollPass)
    (is_time_valid has_uses_remaining : Bool) :
    (update_pass_status p is_time_valid has_uses_remaining).status
      = determine_pass_status is_time_valid has_uses_remaining ∧
    determine_pass_status is_time_valid has_uses_remaining
      = (if ¬ has_uses_remaining then PassStatus.EXHAUSTED
         else if ¬ is_time_valid then PassStatus.EXPIRED
         else PassStatus.ACTIVE) := by
  cases is_time_valid <;> cases has_uses_remaining <;> exact ⟨rfl, rfl⟩

/-! ## C9 — coherence of the evaluator's result -/

/-- C9: every result actually returned by `validate_pass` satisfies:
`is_valid` iff `reason` is `none`; `is_valid` implies
`has_uses_remaining`; `is_first_use` iff the pass's `first_used_at` is
null; and a first-use result always reports `is_time_valid = true`. -/
theorem validation_result_coherence (p : TollPass) (now : Int)
    (r : PassValidationResult) (h : validate_pass p now = some r) :
    (r.is_valid = true ↔ r.reason = none) ∧
    (r.is_valid = true → r.has_uses_remaining = true) ∧
    (r.is_first_use = true ↔ p.first_used_at = none) ∧
    (r.is_first_use = true → r.is_time_valid = true) := by
  cases hfu : p.first_used_at with
  | none =>
    simp only [validate_pass, hfu] at h
    split at h <;> (injection h with h; subst h; simp [hfu])
  | some fu =>
    cases hvu : p.valid_until with
    | none => simp [validate_pass, hfu, hvu] at h
    | some vu =>
      simp only [validate_pass, hfu, hvu] at h
      split at h
      · injection h with h; subst h; simp [hfu]
      · split at h <;> (injection h with h; subst h; simp [hfu])

/-- Witness for C9 at `staleActivePass` evaluated at instant 200. -/
theorem validation_result_coherence_witness :
    validate_pass staleActivePass 200
      = some { is_valid := false, reason := some "expired",
               is_time_valid := false, has_uses_remaining := false,
               is_first_use := false } ∧
    (let r : PassValidationResult :=
      { is_valid := false, reason := some "expired",
        is_time_valid := false, has_uses_remaining := false,
        is_first_use := false }
     (r.is_valid = true ↔ r.reason = none) ∧
     (r.is_valid = true → r.has_uses_remaining = true) ∧
     (r.is_first_use = true ↔ staleActivePass.first_used_at = none) ∧
     (r.is_first_use = true → r.is_time_valid = true)) :=
  ⟨by decide,
   validation_result_coherence staleActivePass 200 _ (by decide)⟩

/-! ## C3 — the duplicate-active-pass check reads the stored status -/

/-- The status of a pass as the Evaluator would determine it at `now` (the
spec's "current evaluated status"): `determine_pass_status` applied to the
evaluation's time and usage checks. -/
def evaluated_status (p : TollPass) (now : Int) : Option PassStatus :=
  (validate_pass p now).map (fun r =>
    determine_pass_status r.is_time_valid r.has_uses_remaining)

/-- Fixture booth. -/
def demoBooth : TollBooth :=
  { booth_id := "B1", toll_id := "T1", name := "Booth A" }

/-- Fixture toll with one booth. -/
def demoToll : Toll :=
  { toll_id := "T1", name := "Toll One", location := "NH-1",
    booths := [demoBooth] }

/-- Fixture vehicle. -/
def demoVehicle : Vehicle :=
  { registration_number := "V1", vehicle_type := VehicleType.TWO_WHEELER }

/-- A pass whose stored status column still reads ACTIVE although its
validity window (first use at 0, `valid_until` 100) is over: evaluated at
any instant past 100 it is EXPIRED. -/
def staleExpiredPass : TollPass :=
  { staleActivePass with uses_remaining := 1 }

/-- A system state holding only `staleExpiredPass` for (V1, T1). -/
def staleState : SysState :=
  { vehicles := [demoVehicle], tolls := [demoToll],
    passes := [staleExpiredPass], transactions := [],
    next_pass_id := 2, next_transaction_id := 1 }

/-- C3 counterexample: at instant 200 every pass of (V1, T1) in
`staleState` has evaluated status EXPIRED — not ACTIVE — yet
`purchase_pass` still fails with the duplicate-active-pass error, because
`find_active_pass` filters on the stored `status` column instead of
re-running the Evaluator. -/
theorem duplicate_check_counterexample :
    (∀ p ∈ staleState.passes,
      evaluated_status p 200 = some PassStatus.EXPIRED) ∧
    purchase_pass staleState "V1" "T1" "B1" PassType.SINGLE 200
      = Except.error
          "Vehicle already has an active pass at this toll. Pass ID: 1" :=
  ⟨by decide, rfl⟩

/-- C3 amended: with the vehicle, toll and booth known, `purchase_pass`
fails (with the duplicate-active-pass error) iff some stored pass of the
(vehicle, toll) pair has its STORED `status` column equal to ACTIVE — the
Evaluator is NOT re-run, so a stale stored ACTIVE blocks the purchase even
when every such pass would evaluate to EXPIRED or EXHAUSTED as of `now`. -/
theorem duplicate_check_amended (st : SysState) (v t b : String)
    (pt : PassType) (now : Int) (vehicle : Vehicle) (toll : Toll)
    (booth : TollBooth)
    (hv : get_vehicle st.vehicles v = some vehicle)
    (ht : get_toll st.tolls t = some toll)
    (hb : get_booth toll b = some booth) :
    (∃ e, purchase_pass st v t b pt now = Except.error e) ↔
      ∃ p ∈ st.passes, p.vehicle_reg = v ∧ p.toll_id = t ∧
        p.status = PassStatus.ACTIVE := by
  unfold purchase_pass
  cases hfa : find_active_pass st.passes v t with
  | none =>
    simp only [hv, ht, hb, hfa]
    constructor
    · rintro ⟨e, he⟩
      exact Except.noConfusion he
    · rintro ⟨p, hp, hc⟩
      exact absurd hc (find_active_pass_eq_none.mp hfa p hp)
  | some q =>
    simp only [hv, ht, hb, hfa]
    constructor
    · intro _
      obtain ⟨hm, h1, h2, h3⟩ := find_active_pass_mem hfa
      exact ⟨q, hm, h1, h2, h3⟩
    · intro _
      exact ⟨_, rfl⟩

/-- Witness for the amended C3 on `staleState`: both sides of the
equivalence hold there. -/
theorem duplicate_check_amended_witness :
    get_vehicle staleState.vehicles "V1" = some demoVehicle ∧
    get_toll staleState.tolls "T1" = some demoToll ∧
    get_booth demoToll "B1" = some demoBooth ∧
    ((∃ e, purchase_pass staleState "V1" "T1" "B1" PassType.SINGLE 200
        = Except.error e) ↔
      ∃ p ∈ staleState.passes, p.vehicle_reg = "V1" ∧ p.toll_id = "T1" ∧
        p.status = PassStatus.ACTIVE) :=
  ⟨rfl, rfl, rfl,
   duplicate_check_amended staleState "V1" "T1" "B1" PassType.SINGLE 200
     demoVehicle demoToll demoBooth rfl rfl rfl⟩

/-! ## C10 — snapshot null-safety -/

/-- C10: for a state whose passes satisfy the nullability invariant
(`valid_until` null iff `first_used_at` null), `process_vehicle` always
returns a result — in particular the evaluation's `valid_until` comparison
and the snapshot's `valid_until` formatting never hit a null value (the
modelled crash result `none` is impossible), because the first-use branch
anchors `valid_until` before any snapshot is built. -/
theorem snapshot_null_safety (st : SysState) (v t b : String) (now : Int)
    (hinv : ∀ p ∈ st.passes,
      (p.first_used_at = none ↔ p.valid_until = none)) :
    ∃ st2 r, process_vehicle st v t b now = some (st2, r) := by
  cases hres : process_vehicle st v t b now with
  | some pr => exact ⟨pr.1, pr.2, rfl⟩
  | none =>
    exfalso
    unfold process_vehicle at hres
    cases hv : get_vehicle st.vehicles v with
    | none => simp [hv] at hres
    | some vehicle =>
    cases ht : get_toll st.tolls t with
    | none => simp [hv, ht] at hres
    | some toll =>
    cases hb : get_booth toll b with
    | none => simp [hv, ht, hb] at hres
    | some booth =>
    cases hfa : find_active_pass st.passes v t with
    | none => simp [hv, ht, hb, hfa] at hres
    | some tp =>
      have htp : tp ∈ st.passes := (find_active_pass_mem hfa).1
      have hiff := hinv tp htp
      obtain ⟨vr, hvr⟩ : ∃ vr, validate_pass tp now = some vr := by
        apply validate_pass_isSome
        cases hvu : tp.valid_until with
        | none => exact Or.inl (hiff.mpr hvu)
        | some vu => exact Or.inr ⟨vu, rfl⟩
      simp only [hv, ht, hb, hfa, hvr] at hres
      cases hfb : vr.is_first_use with
      | true =>
        have h2 : (set_first_use tp now).valid_until
            = some (now + get_pass_duration tp.pass_type) := rfl
        have h3 : (use_pass (set_first_use tp now)).valid_until
            = some (now + get_pass_duration tp.pass_type) := by
          rw [(use_pass_fields _).2.2.1, h2]
        cases hvb : vr.is_valid <;>
          simp [hfb, hvb, build_pass_info, h2, h3] at hres
      | false =>
        have hfune : tp.first_used_at ≠ none := by
          intro hn
          have hft := (validate_isFirstUse hvr).mpr hn
          rw [hfb] at hft
          exact Bool.noConfusion hft
        obtain ⟨vu, hvu⟩ : ∃ vu, tp.valid_until = some vu := by
          cases hvu : tp.valid_until with
          | none => exact absurd (hiff.mpr hvu) hfune
          | some vu => exact ⟨vu, rfl⟩
        have h2 : (update_pass_status tp vr.is_time_valid
            vr.has_uses_remaining).valid_until = some vu := by
          rw [(update_pass_status_fields tp _ _).2.2.1, hvu]
        have h3 : (use_pass (update_pass_status tp vr.is_time_valid
            vr.has_uses_remaining)).valid_until = some vu := by
          rw [(use_pass_fields _).2.2.1, h2]
        cases hvb : vr.is_valid <;>
          simp [hfb, hvb, build_pass_info, h2, h3] at hres

/-- Witness for C10 on `staleState` (whose only pass has both lifecycle
timestamps set), at instant 200. -/
theorem snapshot_null_safety_witness :
    (∀ p ∈ staleState.passes,
      (p.first_used_at = none ↔ p.valid_until = none)) ∧
    ∃ st2 r, process_vehicle staleState "V1" "T1" "B1" 200
      = some (st2, r) :=
  ⟨by decide,
   snapshot_null_safety staleState "V1" "T1" "B1" 200 (by decide)⟩

/-! ## C6 — usage monotonicity -/

/-- The pass stored by the pipeline before any consumption keeps the found
pass's identity and use count. -/
lemma pipeline_pass_fields {tp : TollPass} {now : Int}
    {vr : PassValidationResult} (p2 : TollPass)
    (hp2 : p2 = (if vr.is_first_use then set_first_use tp now
                 else update_pass_status tp vr.is_time_valid
                   vr.has_uses_remaining)) :
    p2.pass_id = tp.pass_id ∧ p2.uses_remaining = tp.uses_remaining := by
  cases hfb : vr.is_first_use <;> simp only [hfb] at hp2 <;>
    simp only [Bool.false_eq_true, if_false, if_true, ite_true, ite_false] at hp2 <;>
    subst hp2
  · exact ⟨(update_pass_status_fields tp _ _).1,
      (update_pass_status_fields tp _ _).2.2.2.2⟩
  · exact ⟨rfl, rfl⟩

/-- C6: `use_pass` decrements `uses_remaining` by exactly 1 and sets the
status to EXHAUSTED exactly when the result is 0 (otherwise the status is
untouched); and across any `process_vehicle` step every stored pass
descends from a pass of the previous state with the same id, with
`uses_remaining` never increased and never driven below 0 — the decrement
only happens on a pass just found usable, which has `uses_remaining > 0`. -/
theorem uses_remaining_monotonic :
    (∀ p : TollPass,
      (use_pass p).uses_remaining = p.uses_remaining - 1 ∧
      (use_pass p).status =
        (if p.uses_remaining - 1 = 0 then PassStatus.EXHAUSTED
         else p.status)) ∧
    (∀ (st : SysState) (v t b : String) (now : Int) (st2 : SysState)
        (r : PassageResult),
      process_vehicle st v t b now = some (st2, r) →
      ∀ q2 ∈ st2.passes, ∃ q ∈ st.passes,
        q.pass_id = q2.pass_id ∧
        q2.uses_remaining ≤ q.uses_remaining ∧
        (0 ≤ q.uses_remaining → 0 ≤ q2.uses_remaining)) := by
  constructor
  · intro p
    by_cases h : p.uses_remaining - 1 = 0 <;> simp [use_pass, h]
  · intro st v t b now st2 r h q2 hq2
    rcases process_vehicle_spec h with ⟨hst, -, -⟩ |
      ⟨vehicle, toll, booth, tp, vr, hv, ht, hb, hfa, hvr, p2, hp2, hcase⟩
    · subst hst
      exact ⟨q2, hq2, rfl, le_refl _, fun hq => hq⟩
    · have htp : tp ∈ st.passes := (find_active_pass_mem hfa).1
      obtain ⟨hpid, huses⟩ := pipeline_pass_fields p2 hp2
      rcases hcase with ⟨hvb, info, hinfo, hst, hr⟩ |
        ⟨hvb, info, hinfo, hst, hr⟩
      · rw [hst] at hq2
        rcases mem_update_pass hq2 with hmem | hq2e
        · exact ⟨q2, hmem, rfl, le_refl _, fun hq => hq⟩
        · subst hq2e
          exact ⟨tp, htp, hpid.symm, le_of_eq huses,
            fun hq => huses ▸ hq⟩
      · rw [hst] at hq2
        rcases mem_update_pass hq2 with hq2i | hq2e
        · rcases mem_update_pass hq2i with hmem | hq2e
          · exact ⟨q2, hmem, rfl, le_refl _, fun hq => hq⟩
          · subst hq2e
            exact ⟨tp, htp, hpid.symm, le_of_eq huses,
              fun hq => huses ▸ hq⟩
        · subst hq2e
          have hdec : (use_pass p2).uses_remaining = p2.uses_remaining - 1 :=
            (use_pass_fields p2).2.2.2.2
          have hpos : 0 < tp.uses_remaining := validate_isValid_uses hvr hvb
          refine ⟨tp, htp, ?_, ?_, ?_⟩
          · rw [(use_pass_fields p2).1, hpid]
          · rw [hdec, huses]
            omega
          · intro _
            rw [hdec, huses]
            omega

/-! ## C7 — frame effects of a passage attempt -/

/-- C7: a denied `process_vehicle` attempt appends no audit record and
leaves all booth counters unchanged; the denial with no pass found (null
snapshot) mutates nothing at all; the denial on a found, already-used,
unusable pass persists only the recomputed status of that pass (its
`uses_remaining`, `first_used_at` and `valid_until` are unchanged); and
only an allowed attempt appends an audit record, of type PASSAGE with
amount 0. -/
theorem denial_frame_effects (st : SysState) (v t b : String) (now : Int)
    (st2 : SysState) (r : PassageResult)
    (h : process_vehicle st v t b now = some (st2, r)) :
    (r.allowed = false →
      st2.transactions = st.transactions ∧ st2.tolls = st.tolls) ∧
    (r.allowed = false → r.pass_info = none → st2 = st) ∧
    (r.allowed = false → r.pass_info ≠ none →
      ∀ tp, find_active_pass st.passes v t = some tp →
        tp.first_used_at ≠ none →
        ∃ p2, st2.passes = update_pass st.passes p2 ∧
          p2.pass_id = tp.pass_id ∧
          p2.first_used_at = tp.first_used_at ∧
          p2.valid_until = tp.valid_until ∧
          p2.uses_remaining = tp.uses_remaining ∧
          ∃ vr, validate_pass tp now = some vr ∧
            p2.status = determine_pass_status vr.is_time_valid
              vr.has_uses_remaining) ∧
    (r.allowed = true →
      ∃ txn, st2.transactions = st.transactions ++ [txn] ∧
        txn.amount = 0 ∧ txn.transaction_type = "PASSAGE") := by
  rcases process_vehicle_spec h with ⟨hst, hal, hpi⟩ |
    ⟨vehicle, toll, booth, tp0, vr, hv, ht, hb, hfa, hvr, p2, hp2, hcase⟩
  · subst hst
    refine ⟨fun _ => ⟨rfl, rfl⟩, fun _ _ => rfl,
      fun _ hne => absurd hpi hne,
      fun htr => Bool.noConfusion (hal.symm.trans htr)⟩
  · rcases hcase with ⟨hvb, info, hinfo, hst, hr⟩ |
      ⟨hvb, info, hinfo, hst, hr⟩
    · subst hst
      subst hr
      refine ⟨fun _ => ⟨rfl, rfl⟩,
        fun _ hcontra => Option.noConfusion hcontra, ?_,
        fun htr => Bool.noConfusion htr⟩
      intro _ _ tp hfa2 hfune
      rw [hfa] at hfa2
      injection hfa2 with htpe
      subst htpe
      have hfb : vr.is_first_use = false := by
        cases hq : vr.is_first_use
        · rfl
        · exact absurd ((validate_isFirstUse hvr).mp hq) hfune
      simp only [hfb, Bool.false_eq_true, if_false, ite_false] at hp2
      subst hp2
      exact ⟨update_pass_status tp0 vr.is_time_valid vr.has_uses_remaining,
        rfl, (update_pass_status_fields tp0 _ _).1,
        (update_pass_status_fields tp0 _ _).2.1,
        (update_pass_status_fields tp0 _ _).2.2.1,
        (update_pass_status_fields tp0 _ _).2.2.2.2,
        vr, hvr, update_pass_status_status tp0 _ _⟩
    · subst hst
      subst hr
      exact ⟨fun hcontra => Bool.noConfusion hcontra,
        fun hcontra _ => Bool.noConfusion hcontra,
        fun hcontra _ => Bool.noConfusion hcontra,
        fun _ => ⟨_, rfl, rfl, rfl⟩⟩

/-! ## C5 — nullability invariant over all reachable states -/

/-- The spec's pass-field invariant: `valid_until` null iff `first_used_at`
null, and when set, `valid_until = first_used_at + duration(pass_class)`. -/
def PassFieldsInv (p : TollPass) : Prop :=
  (p.first_used_at = none ↔ p.valid_until = none) ∧
  ∀ fu, p.first_used_at = some fu →
    p.valid_until = some (fu + get_pass_duration p.pass_type)

/-- States reachable from an initial empty pass table (counters seeded from
the zero record counts) by any sequence of `purchase_pass` and
`process_vehicle` operations. -/
inductive Reachable : SysState → Prop where
  | init (vehicles : List Vehicle) (tolls : List Toll) :
      Reachable { vehicles := vehicles, tolls := tolls, passes := [],
                  transactions := [], next_pass_id := 1,
                  next_transaction_id := 1 }
  | purchase {st : SysState} {v t b : String} {pt : PassType} {now : Int}
      {st2 : SysState} {p : TollPass} (hst : Reachable st)
      (h : purchase_pass st v t b pt now = Except.ok (st2, p)) :
      Reachable st2
  | process {st : SysState} {v t b : String} {now : Int} {st2 : SysState}
      {r : PassageResult} (hst : Reachable st)
      (h : process_vehicle st v t b now = some (st2, r)) :
      Reachable st2

/-- A successful purchase appends a fresh pass with both lifecycle
timestamps null and the class's use count. -/
lemma purchase_pass_ok_spec {st : SysState} {v t b : String} {pt : PassType}
    {now : Int} {st2 : SysState} {p : TollPass}
    (h : purchase_pass st v t b pt now = Except.ok (st2, p)) :
    st2.passes = st.passes ++ [p] ∧ p.first_used_at = none ∧
    p.valid_until = none ∧ p.uses_remaining = get_pass_uses pt ∧
    p.status = PassStatus.ACTIVE ∧ p.pass_id = st.next_pass_id ∧
    st2.next_pass_id = st.next_pass_id + 1 ∧
    st2.transactions = st.transactions ++
      [{ transaction_id := st.next_transaction_id, booth_id := b,
         toll_id := t, vehicle_reg := v, vehicle_type := p.vehicle_type,
         transaction_type := "PURCHASE", pass_id := some p.pass_id,
         amount := p.price, timestamp := now }] := by
  unfold purchase_pass at h
  cases hv : get_vehicle st.vehicles v with
  | none =>
    simp only [hv] at h
    exact Except.noConfusion h
  | some vehicle =>
  cases ht : get_toll st.tolls t with
  | none =>
    simp only [hv, ht] at h
    exact Except.noConfusion h
  | some toll =>
  cases hb : get_booth toll b with
  | none =>
    simp only [hv, ht, hb] at h
    exact Except.noConfusion h
  | some booth =>
  cases hfa : find_active_pass st.passes v t with
  | some q =>
    simp only [hv, ht, hb, hfa] at h
    exact Except.noConfusion h
  | none =>
    simp only [hv, ht, hb, hfa, Except.ok.injEq, Prod.mk.injEq] at h
    obtain ⟨h1, h2⟩ := h
    subst h1
    subst h2
    exact ⟨rfl, rfl, rfl, rfl, rfl, rfl, rfl, rfl⟩

/-- `use_pass` preserves the pass-field invariant. -/
lemma fieldsInv_use_pass {q : TollPass} (h : PassFieldsInv q) :
    PassFieldsInv (use_pass q) := by
  obtain ⟨hiff, hdur⟩ := h
  obtain ⟨-, hfu, hvu, hpt, -⟩ := use_pass_fields q
  constructor
  · rw [hfu, hvu]
    exact hiff
  · intro fu hf
    rw [hfu] at hf
    rw [hvu, hpt]
    exact hdur fu hf

/-- `update_pass_status` preserves the pass-field invariant. -/
lemma fieldsInv_update_pass_status {q : TollPass} (a b : Bool)
    (h : PassFieldsInv q) : PassFieldsInv (update_pass_status q a b) := by
  obtain ⟨hiff, hdur⟩ := h
  obtain ⟨-, hfu, hvu, hpt, -⟩ := update_pass_status_fields q a b
  constructor
  · rw [hfu, hvu]
    exact hiff
  · intro fu hf
    rw [hfu] at hf
    rw [hvu, hpt]
    exact hdur fu hf

/-- `set_first_use` establishes the pass-field invariant. -/
lemma fieldsInv_set_first_use (tp : TollPass) (now : Int) :
    PassFieldsInv (set_first_use tp now) := by
  constructor
  · simp [set_first_use]
  · intro fu hf
    simp only [set_first_use, Option.some.injEq] at hf ⊢
    rw [hf]

/-- Every pass of every reachable state satisfies the field invariant. -/
lemma reachable_passFieldsInv {st : SysState} (hst : Reachable st) :
    ∀ p ∈ st.passes, PassFieldsInv p := by
  induction hst with
  | init vehicles tolls =>
    intro p hp
    exact absurd hp (List.not_mem_nil p)
  | purchase hst h ih =>
    intro q hq
    obtain ⟨hpasses, hfu, hvu, -⟩ := purchase_pass_ok_spec h
    rw [hpasses] at hq
    rcases List.mem_append.mp hq with hold | hnew
    · exact ih q hold
    · rw [List.mem_singleton] at hnew
      subst hnew
      refine ⟨by rw [hfu, hvu], fun fu hf => ?_⟩
      rw [hfu] at hf
      exact Option.noConfusion hf
  | process hst h ih =>
    intro q hq
    rcases process_vehicle_spec h with ⟨hst2, -, -⟩ |
      ⟨vehicle, toll, booth, tp, vr, hv, ht, hb, hfa, hvr, p2, hp2, hcase⟩
    · subst hst2
      exact ih q hq
    · have htpinv : PassFieldsInv tp := ih tp (find_active_pass_mem hfa).1
      have hp2inv : PassFieldsInv p2 := by
        cases hfb : vr.is_first_use <;>
          simp only [hfb, Bool.false_eq_true, if_false, if_true,
            ite_true, ite_false] at hp2 <;> subst hp2
        · exact fieldsInv_update_pass_status _ _ htpinv
        · exact fieldsInv_set_first_use tp _
      rcases hcase with ⟨-, -, -, hst2, -⟩ | ⟨-, -, -, hst2, -⟩
      · rw [hst2] at hq
        rcases mem_update_pass hq with hold | hq2e
        · exact ih q hold
        · subst hq2e
          exact hp2inv
      · rw [hst2] at hq
        rcases mem_update_pass hq with hqi | hq2e
        · rcases mem_update_pass hqi with hold | hq2e
          · exact ih q hold
          · subst hq2e
            exact hp2inv
        · subst hq2e
          exact fieldsInv_use_pass hp2inv

/-- A `process_vehicle` step never rewrites the anchored timestamps of an
already-used pass: every stored pass of the next state descends from a
same-id pass of the previous state whose non-null `first_used_at` and
`valid_until` it keeps. -/
lemma process_preserves_anchor {st : SysState} {v t b : String} {now : Int}
    {st2 : SysState} {r : PassageResult}
    (h : process_vehicle st v t b now = some (st2, r)) :
    ∀ q2 ∈ st2.passes, ∃ q ∈ st.passes, q.pass_id = q2.pass_id ∧
      ∀ fu, q.first_used_at = some fu →
        q2.first_used_at = some fu ∧ q2.valid_until = q.valid_until := by
  intro q2 hq2
  rcases process_vehicle_spec h with ⟨hst2, -, -⟩ |
    ⟨vehicle, toll, booth, tp, vr, hv, ht, hb, hfa, hvr, p2, hp2, hcase⟩
  · subst hst2
    exact ⟨q2, hq2, rfl, fun fu hf => ⟨hf, rfl⟩⟩
  · have htp : tp ∈ st.passes := (find_active_pass_mem hfa).1
    have hkey : ∀ fu, tp.first_used_at = some fu →
        p2.first_used_at = some fu ∧ p2.valid_until = tp.valid_until := by
      intro fu hf
      have hfb : vr.is_first_use = false := by
        cases hq : vr.is_first_use
        · rfl
        · rw [(validate_isFirstUse hvr).mp hq] at hf
          exact Option.noConfusion hf
      simp only [hfb, Bool.false_eq_true, if_false, ite_false] at hp2
      subst hp2
      exact ⟨(update_pass_status_fields tp _ _).2.1.trans hf,
        (update_pass_status_fields tp _ _).2.2.1⟩
    have hpid : p2.pass_id = tp.pass_id := (pipeline_pass_fields p2 hp2).1
    rcases hcase with ⟨-, -, -, hst2, -⟩ | ⟨-, -, -, hst2, -⟩
    · rw [hst2] at hq2
      rcases mem_update_pass hq2 with hold | hq2e
      · exact ⟨q2, hold, rfl, fun fu hf => ⟨hf, rfl⟩⟩
      · subst hq2e
        exact ⟨tp, htp, hpid.symm, hkey⟩
    · rw [hst2] at hq2
      rcases mem_update_pass hq2 with hqi | hq2e
      · rcases mem_update_pass hqi with hold | hq2e
        · exact ⟨q2, hold, rfl, fun fu hf => ⟨hf, rfl⟩⟩
        · subst hq2e
          exact ⟨tp, htp, hpid.symm, hkey⟩
      · subst hq2e
        refine ⟨tp, htp, ((use_pass_fields p2).1.trans hpid).symm,
          fun fu hf => ?_⟩
        obtain ⟨hf2, hv2⟩ := hkey fu hf
        exact ⟨(use_pass_fields p2).2.1.trans hf2,
          (use_pass_fields p2).2.2.1.trans hv2⟩

/-- C5: in every reachable state, every stored pass has `valid_until`
non-null iff `first_used_at` non-null, and when both are set,
`valid_until = first_used_at + duration(pass_class)`; moreover no later
operation recomputes these fields once set — a `process_vehicle` step keeps
the anchored timestamps of every already-used pass, and a `purchase_pass`
step only appends a new pass, leaving existing ones untouched. -/
theorem lifecycle_nullability_invariant (st : SysState)
    (hst : Reachable st) :
    (∀ p ∈ st.passes,
      (p.first_used_at = none ↔ p.valid_until = none) ∧
      ∀ fu, p.first_used_at = some fu →
        p.valid_until = some (fu + get_pass_duration p.pass_type)) ∧
    (∀ (v t b : String) (now : Int) (st2 : SysState) (r : PassageResult),
      process_vehicle st v t b now = some (st2, r) →
      ∀ q2 ∈ st2.passes, ∃ q ∈ st.passes, q.pass_id = q2.pass_id ∧
        ∀ fu, q.first_used_at = some fu →
          q2.first_used_at = some fu ∧ q2.valid_until = q.valid_until) ∧
    (∀ (v t b : String) (pt : PassType) (now : Int) (st2 : SysState)
        (p : TollPass),
      purchase_pass st v t b pt now = Except.ok (st2, p) →
      st2.passes = st.passes ++ [p]) := by
  refine ⟨reachable_passFieldsInv hst, ?_, ?_⟩
  · intro v t b now st2 r h
    exact process_preserves_anchor h
  · intro v t b pt now st2 p h
    exact (purchase_pass_ok_spec h).1

/-! ## Concrete evaluation steps shared by the remaining witnesses -/

/-- `staleExpiredPass` after the denial persisted its recomputed status. -/
def staleExpiredPassAfter : TollPass :=
  { staleExpiredPass with status := PassStatus.EXPIRED }

/-- The state after processing (V1, T1, B1) on `staleState` at instant
200: only the found pass's status changed. -/
def staleDeniedState : SysState :=
  { staleState with passes := [staleExpiredPassAfter] }

/-- The denial returned by that attempt. -/
def staleDeniedResult : PassageResult :=
  { allowed := false,
    message := "Pass 1 is expired",
    pass_info := some
      { pass_id := 1,
        pass_type := PassType.RETURN,
        status := PassStatus.EXPIRED,
        valid_until := 100,
        uses_remaining := 1 },
    pass_options := some (display_pass_options VehicleType.TWO_WHEELER) }

/-- Concrete evaluation: the stale pass is found, evaluated as expired, its
status persisted, and the attempt denied. -/
lemma demo_denied_step :
    process_vehicle staleState "V1" "T1" "B1" 200
      = some (staleDeniedState, staleDeniedResult) := rfl

/-- An initial state holding the demo vehicle and toll and no passes. -/
def demoInitState : SysState :=
  { vehicles := [demoVehicle], tolls := [demoToll], passes := [],
    transactions := [], next_pass_id := 1, next_transaction_id := 1 }

/-- The pass created by purchasing a RETURN pass on `demoInitState`. -/
def demoPurchasedPass : TollPass :=
  { pass_id := 1, vehicle_reg := "V1", toll_id := "T1",
    pass_type := PassType.RETURN, vehicle_type := VehicleType.TWO_WHEELER,
    price := 80, purchased_at := 0, first_used_at := none,
    valid_until := none, uses_remaining := 2,
    status := PassStatus.ACTIVE }

/-- The state after that purchase. -/
def demoPurchasedState : SysState :=
  { vehicles := [demoVehicle],
    tolls := [{ demoToll with
        booths := [{ demoBooth with total_charges_collected := 80 }] }],
    passes := [demoPurchasedPass],
    transactions := [
      { transaction_id := 1,
        booth_id := "B1",
        toll_id := "T1",
        vehicle_reg := "V1",
        vehicle_type := VehicleType.TWO_WHEELER,
        transaction_type := "PURCHASE",
        pass_id := some 1,
        amount := 80,
        timestamp := 0 }],
    next_pass_id := 2, next_transaction_id := 2 }

/-- Concrete evaluation of the purchase step. -/
lemma demo_purchase_step :
    purchase_pass demoInitState "V1" "T1" "B1" PassType.RETURN 0
      = Except.ok (demoPurchasedState, demoPurchasedPass) := rfl

/-- Witness for C5 on the reachable state `demoPurchasedState`. -/
theorem lifecycle_nullability_invariant_witness :
    Reachable demoPurchasedState ∧
    ((∀ p ∈ demoPurchasedState.passes,
      (p.first_used_at = none ↔ p.valid_until = none) ∧
      ∀ fu, p.first_used_at = some fu →
        p.valid_until = some (fu + get_pass_duration p.pass_type)) ∧
    (∀ (v t b : String) (now : Int) (st2 : SysState) (r : PassageResult),
      process_vehicle demoPurchasedState v t b now = some (st2, r) →
      ∀ q2 ∈ st2.passes, ∃ q ∈ demoPurchasedState.passes,
        q.pass_id = q2.pass_id ∧
        ∀ fu, q.first_used_at = some fu →
          q2.first_used_at = some fu ∧ q2.valid_until = q.valid_until) ∧
    (∀ (v t b : String) (pt : PassType) (now : Int) (st2 : SysState)
        (p : TollPass),
      purchase_pass demoPurchasedState v t b pt now = Except.ok (st2, p) →
      st2.passes = demoPurchasedState.passes ++ [p])) :=
  ⟨Reachable.purchase (Reachable.init [demoVehicle] [demoToll])
     demo_purchase_step,
   lifecycle_nullability_invariant demoPurchasedState
     (Reachable.purchase (Reachable.init [demoVehicle] [demoToll])
       demo_purchase_step)⟩

/-- Witness for C6 at the concrete denial step on `staleState`. -/
theorem uses_remaining_monotonic_witness :
    process_vehicle staleState "V1" "T1" "B1" 200
      = some (staleDeniedState, staleDeniedResult) ∧
    staleExpiredPassAfter ∈ staleDeniedState.passes ∧
    ∃ q ∈ staleState.passes, q.pass_id = staleExpiredPassAfter.pass_id ∧
      staleExpiredPassAfter.uses_remaining ≤ q.uses_remaining ∧
      (0 ≤ q.uses_remaining → 0 ≤ staleExpiredPassAfter.uses_remaining) :=
  ⟨demo_denied_step, by decide,
   uses_remaining_monotonic.2 staleState "V1" "T1" "B1" 200
     staleDeniedState staleDeniedResult demo_denied_step
     staleExpiredPassAfter (by decide)⟩

/-- Witness for C7 at the concrete denial step on `staleState`. -/
theorem denial_frame_effects_witness :
    process_vehicle staleState "V1" "T1" "B1" 200
      = some (staleDeniedState, staleDeniedResult) ∧
    ((staleDeniedResult.allowed = false →
       staleDeniedState.transactions = staleState.transactions ∧
       staleDeniedState.tolls = staleState.tolls) ∧
     (staleDeniedResult.allowed = false →
       staleDeniedResult.pass_info = none →
       staleDeniedState = staleState) ∧
     (staleDeniedResult.allowed = false →
       staleDeniedResult.pass_info ≠ none →
       ∀ tp, find_active_pass staleState.passes "V1" "T1" = some tp →
         tp.first_used_at ≠ none →
         ∃ p2, staleDeniedState.passes
             = update_pass staleState.passes p2 ∧
           p2.pass_id = tp.pass_id ∧
           p2.first_used_at = tp.first_used_at ∧
           p2.valid_until = tp.valid_until ∧
           p2.uses_remaining = tp.uses_remaining ∧
           ∃ vr, validate_pass tp 200 = some vr ∧
             p2.status = determine_pass_status vr.is_time_valid
               vr.has_uses_remaining) ∧
     (staleDeniedResult.allowed = true →
       ∃ txn, staleDeniedState.transactions
           = staleState.transactions ++ [txn] ∧
         txn.amount = 0 ∧ txn.transaction_type = "PASSAGE")) :=
  ⟨demo_denied_step,
   denial_frame_effects staleState "V1" "T1" "B1" 200 staleDeniedState
     staleDeniedResult demo_denied_step⟩

end TollSystem
